import Mathlib

/- Verification of the ST7735 display calibration tool.

   The repository is a single Arduino sketch.  Every definition below is a
   shallow embedding of the corresponding C++ function: Serial printing,
   drawing calls and GPIO are pure output and are omitted; what remains is
   each function's effect on the calibration state (the global variables of
   the sketch).  Machine `int`s are modelled as `Int` (the values involved
   stay far from 32-bit overflow).  Blocking reads of a confirmation byte
   are modelled by passing the byte as an explicit argument. -/

namespace Cal

/-- Constant PUBLISHED_WIDTH of the sketch. -/
def PUBLISHED_WIDTH : Int := 160

/-- Constant PUBLISHED_HEIGHT of the sketch. -/
def PUBLISHED_HEIGHT : Int := 128

/-- Width reported by the Adafruit driver after tft.setRotation r : the
    panel is 160x128 in the landscape rotations 1 and 3 and 128x160 in the
    portrait rotations 0 and 2. -/
def tftWidth (r : Int) : Int := if r = 1 ∨ r = 3 then 160 else 128

/-- Height reported by the Adafruit driver after tft.setRotation r. -/
def tftHeight (r : Int) : Int := if r = 1 ∨ r = 3 then 128 else 160

/-- The four globals usableOriginX, usableOriginY, usableWidth,
    usableHeight of the sketch. -/
structure Bounds where
  originX : Int
  originY : Int
  width : Int
  height : Int
deriving DecidableEq, Repr

/-- Enum CalibrationMode of the sketch (underlying values -1 .. 5). -/
inductive CalibrationMode where
  | MODE_NONE
  | MODE_EDGE_ADJUST
  | MODE_FRAME_MOVE
  | MODE_THICKNESS
  | MODE_ROTATION
  | MODE_SAVE_EXIT
  | MODE_EXIT_NO_SAVE
deriving DecidableEq, Repr

/-- Struct SavedState of the sketch (the last-saved snapshot). -/
structure SavedState where
  rotation : Int
  usableOriginX : Int
  usableOriginY : Int
  usableWidth : Int
  usableHeight : Int
  frameThickness : Int
deriving DecidableEq, Repr

/-- The mutable global state of the sketch. -/
structure CalState where
  currentRotation : Int
  bounds : Bounds
  frameThickness : Int
  currentMode : CalibrationMode
  lastSavedState : SavedState
  hasUnsavedChanges : Bool
  hasEverSaved : Bool
  currentDisplayName : String
deriving DecidableEq, Repr

/-- Origin clamp of one axis in validateAndClampBounds: the two sequential
    tests `if (v < 0) v = 0;` then `if (v >= limit) v = limit - 1;`. -/
def clampOrigin (limit v : Int) : Int :=
  if v < 0 then (if (0 : Int) ≥ limit then limit - 1 else 0)
  else (if v ≥ limit then limit - 1 else v)

/-- Size clamp of one axis in validateAndClampBounds, run after the origin
    clamp: shrink to the maximum allowed size, raise to the 10-pixel
    minimum, then the final safety shrink against the display edge. -/
def clampSize (limit origin v : Int) : Int :=
  let v1 := if v > limit - origin then limit - origin else v
  let v2 := if v1 < 10 then 10 else v1
  if origin + v2 > limit then limit - origin else v2

/-- Function validateAndClampBounds of the sketch, acting on the four
    usable-bounds globals.  The C function also returns whether anything
    changed, used only to print a warning; that boolean is omitted. -/
def validateAndClampBounds (maxX maxY : Int) (b : Bounds) : Bounds :=
  let x := clampOrigin maxX b.originX
  let y := clampOrigin maxY b.originY
  ⟨x, y, clampSize maxX x b.width, clampSize maxY y b.height⟩

/-- Function markModified of the sketch. -/
def markModified (s : CalState) : CalState := { s with hasUnsavedChanges := true }

/-- State effect of redrawFrame: it calls validateAndClampBounds before
    drawing (the drawing itself does not touch the state). -/
def redrawFrame (s : CalState) : CalState :=
  { s with bounds :=
      validateAndClampBounds (tftWidth s.currentRotation) (tftHeight s.currentRotation) s.bounds }

/-- Shared tail of an accepted adjustEdge / moveFrame change:
    validateAndClampBounds(); markModified(); redrawFrame();  (so the
    clamp runs twice, once directly and once inside redrawFrame). -/
def acceptEdit (b : Bounds) (s : CalState) : CalState :=
  redrawFrame (markModified
    { s with bounds :=
        validateAndClampBounds (tftWidth s.currentRotation) (tftHeight s.currentRotation) b })

/-- Function adjustEdge of the sketch.  Directions are the decoded arrow
    characters U, D, L, R; step is the constant 1. -/
def adjustEdge (direction : Char) (s : CalState) : CalState :=
  if s.bounds.width = 0 ∨ s.bounds.height = 0 then s
  else
    let step : Int := 1
    let maxX := tftWidth s.currentRotation
    let maxY := tftHeight s.currentRotation
    let b := s.bounds
    if direction = 'U' then
      if b.originY > 0 ∧ b.originY - step ≥ 0 then
        let y := b.originY - step
        let h0 := b.height + step
        let h := if y + h0 > maxY then maxY - y else h0
        acceptEdit { b with originY := y, height := h } s
      else s
    else if direction = 'D' then
      if b.height > 10 ∧ b.originY + step < maxY then
        acceptEdit { b with originY := b.originY + step, height := b.height - step } s
      else s
    else if direction = 'L' then
      if b.originX > 0 ∧ b.originX - step ≥ 0 then
        let x := b.originX - step
        let w0 := b.width + step
        let w := if x + w0 > maxX then maxX - x else w0
        acceptEdit { b with originX := x, width := w } s
      else s
    else if direction = 'R' then
      if b.width > 10 ∧ b.originX + step < maxX then
        acceptEdit { b with originX := b.originX + step, width := b.width - step } s
      else s
    else s

/-- Function moveFrame of the sketch. -/
def moveFrame (direction : Char) (s : CalState) : CalState :=
  if s.bounds.width = 0 ∨ s.bounds.height = 0 then s
  else
    let step : Int := 1
    let maxX := tftWidth s.currentRotation
    let maxY := tftHeight s.currentRotation
    let b := s.bounds
    if direction = 'U' then
      if b.originY > 0 then acceptEdit { b with originY := b.originY - step } s else s
    else if direction = 'D' then
      if b.originY + b.height < maxY then acceptEdit { b with originY := b.originY + step } s
      else s
    else if direction = 'L' then
      if b.originX > 0 then acceptEdit { b with originX := b.originX - step } s else s
    else if direction = 'R' then
      if b.originX + b.width < maxX then acceptEdit { b with originX := b.originX + step } s
      else s
    else s

/-- Function adjustThickness of the sketch: saturating 1..5 thickness
    change; on an accepted change markModified(); redrawFrame();. -/
def adjustThickness (direction : Char) (s : CalState) : CalState :=
  if direction = 'U' ∧ s.frameThickness < 5 then
    redrawFrame (markModified { s with frameThickness := s.frameThickness + 1 })
  else if direction = 'D' ∧ s.frameThickness > 1 then
    redrawFrame (markModified { s with frameThickness := s.frameThickness - 1 })
  else s

/-- Function setRotation of the sketch: for 0..3 it stores the rotation,
    reconfigures the driver, and resets the usable bounds to the unset
    sentinel (all four globals zero); otherwise it only prints an error. -/
def setRotation (rotation : Int) (s : CalState) : CalState :=
  if rotation ≥ 0 ∧ rotation ≤ 3 then
    { s with currentRotation := rotation, bounds := ⟨0, 0, 0, 0⟩ }
  else s

/-- Function rotateDisplay of the sketch: L steps the rotation CCW,
    R steps it CW, any other character leaves it as is; then
    setRotation(currentRotation) and markModified() run. -/
def rotateDisplay (direction : Char) (s : CalState) : CalState :=
  let r := if direction = 'L' then (s.currentRotation + 3) % 4
           else if direction = 'R' then (s.currentRotation + 1) % 4
           else s.currentRotation
  markModified (setRotation r { s with currentRotation := r })

/-- Function handleArrowKey of the sketch: dispatch on the current mode
    (the C switch; MODE_NONE, MODE_SAVE_EXIT and MODE_EXIT_NO_SAVE only
    print a message). -/
def handleArrowKey (key : Char) (s : CalState) : CalState :=
  if s.currentMode = CalibrationMode.MODE_EDGE_ADJUST then adjustEdge key s
  else if s.currentMode = CalibrationMode.MODE_FRAME_MOVE then moveFrame key s
  else if s.currentMode = CalibrationMode.MODE_THICKNESS then adjustThickness key s
  else if s.currentMode = CalibrationMode.MODE_ROTATION then rotateDisplay key s
  else s

/-- Function setUsableBounds of the sketch, the mutation performed by the
    legacy `bounds L,R,T,B` command: the origin and size are stored
    directly from the parsed edges, with no validation or clamping. -/
def setUsableBounds (left right top bottom : Int) (s : CalState) : CalState :=
  { s with bounds := ⟨left, top, right - left + 1, bottom - top + 1⟩ }

/-- Function initializeBoundsFromPublished of the sketch. -/
def initializeBoundsFromPublished (s : CalState) : CalState :=
  if s.currentRotation = 1 ∨ s.currentRotation = 3 then
    { s with bounds := ⟨0, 0, PUBLISHED_WIDTH, PUBLISHED_HEIGHT⟩ }
  else
    { s with bounds := ⟨0, 0, PUBLISHED_HEIGHT, PUBLISHED_WIDTH⟩ }

/-- The calibration record printed between the BEGIN/END markers by
    exportConfig (fields in source order; comment-only lines omitted). -/
structure ConfigRecord where
  name : String
  publishedResolution : Int × Int
  rst : Int
  dc : Int
  cs : Int
  bl : Int
  orientation : String
  left : Int
  right : Int
  top : Int
  bottom : Int
  center : Int × Int
deriving DecidableEq, Repr

/-- Function exportConfig of the sketch: none when the usable bounds are
    unset (the error branch prints and returns), otherwise the emitted
    record.  Integer division is C truncation (all sizes here are
    positive in practice). -/
def exportConfig (s : CalState) : Option ConfigRecord :=
  if s.bounds.width = 0 ∨ s.bounds.height = 0 then none
  else
    let orientation :=
      if s.currentRotation = 0 then "portrait"
      else if s.currentRotation = 1 then "landscape"
      else if s.currentRotation = 2 then "reverse_portrait"
      else if s.currentRotation = 3 then "reverse_landscape"
      else "landscape"
    let centerX := s.bounds.originX + Int.tdiv s.bounds.width 2
    let centerY := s.bounds.originY + Int.tdiv s.bounds.height 2
    let rightEdge := s.bounds.originX + s.bounds.width - 1
    let bottomEdge := s.bounds.originY + s.bounds.height - 1
    some { name := s.currentDisplayName
         , publishedResolution := (PUBLISHED_WIDTH, PUBLISHED_HEIGHT)
         , rst := 8
         , dc := 10
         , cs := 7
         , bl := 9
         , orientation := orientation
         , left := s.bounds.originX
         , right := rightEdge
         , top := s.bounds.originY
         , bottom := bottomEdge
         , center := (centerX, centerY) }

/-- Function saveAndExit of the sketch.  It first calls exportConfig()
    (output only - possibly just the bounds-not-set error message) and
    then, unconditionally, clears the unsaved flag, sets hasEverSaved and
    overwrites the snapshot from the current globals. -/
def saveAndExit (s : CalState) : CalState :=
  { s with hasUnsavedChanges := false
         , hasEverSaved := true
         , lastSavedState :=
            { rotation := s.currentRotation
            , usableOriginX := s.bounds.originX
            , usableOriginY := s.bounds.originY
            , usableWidth := s.bounds.width
            , usableHeight := s.bounds.height
            , frameThickness := s.frameThickness } }

/-- Function checkUnsavedChanges of the sketch; the blocking one-byte read
    is the explicit `response` argument.  ESC (27) and anything but y / Y
    cancel. -/
def checkUnsavedChanges (response : Char) (s : CalState) : Bool :=
  if !s.hasUnsavedChanges then false
  else if response = Char.ofNat 27 then false
  else (response == 'y') || (response == 'Y')

/-- Function exitWithoutSaving of the sketch: when there are unsaved
    changes and the operator does not confirm, the mode falls back to
    MODE_NONE and the session continues; otherwise the sketch halts in an
    infinite loop, modelled by the returned `true` (session ended). -/
def exitWithoutSaving (response : Char) (s : CalState) : CalState × Bool :=
  if s.hasUnsavedChanges ∧ checkUnsavedChanges response s = false then
    ({ s with currentMode := CalibrationMode.MODE_NONE }, false)
  else (s, true)

/-- Cast (CalibrationMode)(mode - 1) of the sketch, for the underlying
    values 0..5 produced by digits 1..6. -/
def modeFromInt (i : Int) : CalibrationMode :=
  if i = 0 then CalibrationMode.MODE_EDGE_ADJUST
  else if i = 1 then CalibrationMode.MODE_FRAME_MOVE
  else if i = 2 then CalibrationMode.MODE_THICKNESS
  else if i = 3 then CalibrationMode.MODE_ROTATION
  else if i = 4 then CalibrationMode.MODE_SAVE_EXIT
  else if i = 5 then CalibrationMode.MODE_EXIT_NO_SAVE
  else CalibrationMode.MODE_NONE

/-- Function setMode of the sketch; `response` is the confirmation byte
    read inside the mode-6 path, and the returned boolean reports whether
    the session halted. -/
def setMode (mode : Int) (response : Char) (s : CalState) : CalState × Bool :=
  if mode ≥ 1 ∧ mode ≤ 6 then
    let s1 := { s with currentMode := modeFromInt (mode - 1) }
    if s1.currentMode = CalibrationMode.MODE_SAVE_EXIT then (saveAndExit s1, false)
    else if s1.currentMode = CalibrationMode.MODE_EXIT_NO_SAVE then exitWithoutSaving response s1
    else (s1, false)
  else (s, false)

/-- The four invariants listed in the data-model section for a set usable
    rectangle inside a maxX-by-maxY nominal surface. -/
def boundsOKfor (maxX maxY : Int) (b : Bounds) : Prop :=
  0 ≤ b.originX ∧ 0 ≤ b.originY ∧
  b.originX + b.width ≤ maxX ∧ b.originY + b.height ≤ maxY ∧
  10 ≤ b.width ∧ 10 ≤ b.height

instance (maxX maxY : Int) (b : Bounds) : Decidable (boundsOKfor maxX maxY b) := by
  unfold boundsOKfor
  infer_instance

/-- The invariants of a state, against the nominal surface of its own
    rotation. -/
def stateBoundsOK (s : CalState) : Prop :=
  boundsOKfor (tftWidth s.currentRotation) (tftHeight s.currentRotation) s.bounds

instance (s : CalState) : Decidable (stateBoundsOK s) := by
  unfold stateBoundsOK
  infer_instance

/-- The global state right after setup() finishes bootstrap (before
    initializeBoundsFromPublished runs): default rotation 1, thickness 2,
    no mode, bounds unset, snapshot zeroed at rotation 1. -/
def bootState (name : String) : CalState :=
  { currentRotation := 1
  , bounds := ⟨0, 0, 0, 0⟩
  , frameThickness := 2
  , currentMode := CalibrationMode.MODE_NONE
  , lastSavedState :=
      { rotation := 1, usableOriginX := 0, usableOriginY := 0
      , usableWidth := 0, usableHeight := 0, frameThickness := 2 }
  , hasUnsavedChanges := false
  , hasEverSaved := false
  , currentDisplayName := name }

/-- Bootstrap state of the scenario of claim C1: rotation 1, bounds
    initialised from the published dimensions. -/
def c1Boot : CalState := initializeBoundsFromPublished (bootState "DueLCD01")

/-- C1 scenario after one contract-left (right arrow in edge mode). -/
def c1AfterLeft : CalState := adjustEdge 'R' c1Boot

/-- C1 scenario after additionally two contract-top steps (down arrows). -/
def c1Final : CalState := adjustEdge 'D' (adjustEdge 'D' c1AfterLeft)

/-- A snapshot distinct from the bootstrap one, for the C5 scenario. -/
def c5Snapshot : SavedState :=
  { rotation := 1, usableOriginX := 3, usableOriginY := 4
  , usableWidth := 20, usableHeight := 20, frameThickness := 2 }

/-- C5 scenario state: bounds still unset, but with unsaved changes and
    an old snapshot on record. -/
def c5State : CalState :=
  { bootState "D" with hasUnsavedChanges := true, lastSavedState := c5Snapshot }

/-- C4 counterexample state: Edge-Adjust mode active before the digit 5
    is handled. -/
def c4State : CalState :=
  { bootState "D" with currentMode := CalibrationMode.MODE_EDGE_ADJUST }

/-- Concrete rotation-1 state with set bounds, for the C7 witness. -/
def c7S : CalState := initializeBoundsFromPublished (bootState "D")

/-- Concrete rotation-1 state with set bounds, for the C9 witness. -/
def c9Sample : CalState := initializeBoundsFromPublished (bootState "D")

/-- The record exportConfig emits for c9Sample. -/
def c9Record : ConfigRecord :=
  { name := "D"
  , publishedResolution := (160, 128)
  , rst := 8, dc := 10, cs := 7, bl := 9
  , orientation := "landscape"
  , left := 0, right := 159, top := 0, bottom := 127
  , center := (80, 64) }

/-- Concrete rotation-mode state for the C10 witness. -/
def c10State : CalState :=
  { initializeBoundsFromPublished (bootState "D") with
      currentMode := CalibrationMode.MODE_ROTATION }

theorem clampOrigin_idem (limit v : Int) :
    clampOrigin limit (clampOrigin limit v) = clampOrigin limit v := by
  unfold clampOrigin
  split_ifs <;> omega

theorem clampSize_idem (limit origin v : Int) :
    clampSize limit origin (clampSize limit origin v) = clampSize limit origin v := by
  simp only [clampSize]
  split_ifs <;> omega

/-- C8: the clamping algorithm is idempotent - for every bounds rectangle
    and every nominal surface, clamping twice equals clamping once. -/
theorem c8_clamp_idempotent (maxX maxY : Int) (b : Bounds) :
    validateAndClampBounds maxX maxY (validateAndClampBounds maxX maxY b) =
      validateAndClampBounds maxX maxY b := by
  simp only [validateAndClampBounds, clampOrigin_idem, clampSize_idem]

/-- C1 counterexample: running the claimed scenario, the exported center is
    (80, 65), not (80, 64) - the code computes centerY as y + height / 2 =
    2 + 63 = 65. -/
theorem c1_center_cex :
    (exportConfig c1Final).map ConfigRecord.center = some ((80 : Int), (65 : Int)) ∧
    ((80 : Int), (65 : Int)) ≠ ((80 : Int), (64 : Int)) := by
  constructor
  · decide
  · decide

/-- C1 (amended): from the bootstrap state at rotation 1 the bounds are
    (0,0,160,128); one contract-left gives (1,0,159,128); two contract-top
    steps give (1,2,159,126); the export then has left 1, right 159, top 2,
    bottom 127 and center (80, 65). -/
theorem c1_scenario_amended :
    c1Boot.bounds = ⟨0, 0, 160, 128⟩ ∧
    c1AfterLeft.bounds = ⟨1, 0, 159, 128⟩ ∧
    c1Final.bounds = ⟨1, 2, 159, 126⟩ ∧
    exportConfig c1Final =
      some { name := "DueLCD01"
           , publishedResolution := (160, 128)
           , rst := 8, dc := 10, cs := 7, bl := 9
           , orientation := "landscape"
           , left := 1, right := 159, top := 2, bottom := 127
           , center := (80, 65) } := by
  refine ⟨by decide, by decide, by decide, by decide⟩

theorem clampOrigin_range (limit v : Int) (h : 1 ≤ limit) :
    0 ≤ clampOrigin limit v ∧ clampOrigin limit v ≤ limit - 1 := by
  unfold clampOrigin
  split_ifs <;> omega

theorem clampSize_range (limit origin v : Int)
    (_h0 : 0 ≤ origin) (h1 : origin ≤ limit - 1) :
    1 ≤ clampSize limit origin v ∧ origin + clampSize limit origin v ≤ limit ∧
    (origin ≤ limit - 10 → 10 ≤ clampSize limit origin v) := by
  simp only [clampSize]
  split_ifs <;> omega

/-- C2 counterexample: on the rotation-1 nominal surface (160x128) the
    input bounds (155, 0, 20, 128) are clamped to width 5, violating the
    minimum-size invariant width >= 10: the final safety shrink against
    the display edge undoes the 10-pixel floor. -/
theorem c2_min_width_cex :
    (validateAndClampBounds (tftWidth 1) (tftHeight 1) ⟨155, 0, 20, 128⟩).width = 5 ∧
    ¬ (10 ≤ (validateAndClampBounds (tftWidth 1) (tftHeight 1) ⟨155, 0, 20, 128⟩).width) := by
  constructor
  · decide
  · decide

/-- C2 (amended): for every input rectangle and any nominal surface at
    least 10 pixels each way, the clamped bounds have a non-negative
    origin, fit inside the surface, and have positive size; the 10-pixel
    minimum on width (resp. height) additionally holds whenever the
    clamped origin leaves at least 10 pixels to the surface edge - but can
    fail when the origin lands closer than 10 pixels to the edge. -/
theorem c2_clamp_invariants_amended (maxX maxY : Int) (b : Bounds)
    (hX : 10 ≤ maxX) (hY : 10 ≤ maxY) :
    0 ≤ (validateAndClampBounds maxX maxY b).originX ∧
    0 ≤ (validateAndClampBounds maxX maxY b).originY ∧
    (validateAndClampBounds maxX maxY b).originX +
      (validateAndClampBounds maxX maxY b).width ≤ maxX ∧
    (validateAndClampBounds maxX maxY b).originY +
      (validateAndClampBounds maxX maxY b).height ≤ maxY ∧
    1 ≤ (validateAndClampBounds maxX maxY b).width ∧
    1 ≤ (validateAndClampBounds maxX maxY b).height ∧
    ((validateAndClampBounds maxX maxY b).originX ≤ maxX - 10 →
      10 ≤ (validateAndClampBounds maxX maxY b).width) ∧
    ((validateAndClampBounds maxX maxY b).originY ≤ maxY - 10 →
      10 ≤ (validateAndClampBounds maxX maxY b).height) := by
  have hx := clampOrigin_range maxX b.originX (by omega)
  have hy := clampOrigin_range maxY b.originY (by omega)
  have hw := clampSize_range maxX (clampOrigin maxX b.originX) b.width hx.1 hx.2
  have hh := clampSize_range maxY (clampOrigin maxY b.originY) b.height hy.1 hy.2
  simp only [validateAndClampBounds]
  exact ⟨hx.1, hy.1, hw.2.1, hh.2.1, hw.1, hh.1, hw.2.2, hh.2.2⟩

/-- Witness for the amended C2 theorem at the rotation-1 surface and a
    deliberately wild input rectangle. -/
theorem c2_clamp_invariants_witness :
    (10 ≤ (160 : Int)) ∧ (10 ≤ (128 : Int)) ∧
    (0 ≤ (validateAndClampBounds 160 128 ⟨-5, -7, 500, -3⟩).originX ∧
     0 ≤ (validateAndClampBounds 160 128 ⟨-5, -7, 500, -3⟩).originY ∧
     (validateAndClampBounds 160 128 ⟨-5, -7, 500, -3⟩).originX +
       (validateAndClampBounds 160 128 ⟨-5, -7, 500, -3⟩).width ≤ 160 ∧
     (validateAndClampBounds 160 128 ⟨-5, -7, 500, -3⟩).originY +
       (validateAndClampBounds 160 128 ⟨-5, -7, 500, -3⟩).height ≤ 128 ∧
     1 ≤ (validateAndClampBounds 160 128 ⟨-5, -7, 500, -3⟩).width ∧
     1 ≤ (validateAndClampBounds 160 128 ⟨-5, -7, 500, -3⟩).height ∧
     ((validateAndClampBounds 160 128 ⟨-5, -7, 500, -3⟩).originX ≤ 160 - 10 →
       10 ≤ (validateAndClampBounds 160 128 ⟨-5, -7, 500, -3⟩).width) ∧
     ((validateAndClampBounds 160 128 ⟨-5, -7, 500, -3⟩).originY ≤ 128 - 10 →
       10 ≤ (validateAndClampBounds 160 128 ⟨-5, -7, 500, -3⟩).height)) :=
  ⟨by decide, by decide,
   c2_clamp_invariants_amended 160 128 ⟨-5, -7, 500, -3⟩ (by decide) (by decide)⟩

theorem clampOrigin_id (limit v : Int) (h0 : 0 ≤ v) (h1 : v < limit) :
    clampOrigin limit v = v := by
  unfold clampOrigin
  split_ifs <;> omega

theorem clampSize_id (limit origin v : Int) (h1 : 10 ≤ v) (h2 : origin + v ≤ limit) :
    clampSize limit origin v = v := by
  simp only [clampSize]
  split_ifs <;> omega

theorem clamp_id_of_OK (maxX maxY : Int) (b : Bounds) (h : boundsOKfor maxX maxY b) :
    validateAndClampBounds maxX maxY b = b := by
  obtain ⟨h1, h2, h3, h4, h5, h6⟩ := h
  simp only [validateAndClampBounds]
  rw [clampOrigin_id maxX b.originX h1 (by omega),
      clampOrigin_id maxY b.originY h2 (by omega),
      clampSize_id maxX b.originX b.width h5 h3,
      clampSize_id maxY b.originY b.height h6 h4]

theorem stateBoundsOK_acceptEdit (b : Bounds) (s : CalState)
    (h : boundsOKfor (tftWidth s.currentRotation) (tftHeight s.currentRotation) b) :
    stateBoundsOK (acceptEdit b s) := by
  unfold stateBoundsOK acceptEdit redrawFrame markModified
  simpa only [clamp_id_of_OK _ _ _ h] using h

/-- C3 counterexample: the legacy bounds command stores the parsed edges
    directly with no clamping - `bounds 0,200,0,200` on the rotation-1
    surface yields the rectangle (0,0,201,201), which is not inside the
    160x128 nominal surface. -/
theorem c3_bounds_command_cex :
    ¬ stateBoundsOK (setUsableBounds 0 200 0 200 (initializeBoundsFromPublished (bootState "D"))) := by
  decide

/-- C3 (amended): an arrow-key edit (adjustEdge or moveFrame, any
    direction) starting from bounds satisfying the invariants again
    yields bounds satisfying the invariants; the legacy bounds command is
    excluded because it stores the parsed values unvalidated. -/
theorem c3_edit_preserves_invariants (s : CalState) (d : Char)
    (h : stateBoundsOK s) :
    stateBoundsOK (adjustEdge d s) ∧ stateBoundsOK (moveFrame d s) := by
  obtain ⟨h1, h2, h3, h4, h5, h6⟩ := h
  constructor
  · simp only [adjustEdge]
    split_ifs
    all_goals
      first
      | exact ⟨h1, h2, h3, h4, h5, h6⟩
      | (apply stateBoundsOK_acceptEdit
         unfold boundsOKfor
         dsimp only
         omega)
  · simp only [moveFrame]
    split_ifs
    all_goals
      first
      | exact ⟨h1, h2, h3, h4, h5, h6⟩
      | (apply stateBoundsOK_acceptEdit
         unfold boundsOKfor
         dsimp only
         omega)

/-- Witness for the amended C3 theorem at the bootstrap scenario state. -/
theorem c3_edit_preserves_invariants_witness :
    stateBoundsOK (initializeBoundsFromPublished (bootState "D")) ∧
    (stateBoundsOK (adjustEdge 'R' (initializeBoundsFromPublished (bootState "D"))) ∧
     stateBoundsOK (moveFrame 'R' (initializeBoundsFromPublished (bootState "D")))) :=
  ⟨by decide, c3_edit_preserves_invariants (initializeBoundsFromPublished (bootState "D")) 'R' (by decide)⟩

/-- C4 counterexample: with Edge-Adjust active, handling the digit 5
    leaves the mode field equal to MODE_SAVE_EXIT, not the mode that was
    current before - setMode assigns the cast digit and saveAndExit never
    restores it. -/
theorem c4_mode_changed_cex :
    c4State.currentMode = CalibrationMode.MODE_EDGE_ADJUST ∧
    ((setMode 5 'x' c4State).fst).currentMode ≠ CalibrationMode.MODE_EDGE_ADJUST := by
  refine ⟨by decide, by decide⟩

/-- C4 (amended): handling ModeSelect(5) performs the save-and-export
    action (flag cleared, hasEverSaved set, snapshot overwritten from the
    current fields, session not ended) but sets the persisted mode field
    to MODE_SAVE_EXIT regardless of the mode that was active before. -/
theorem c4_setMode5_amended (s : CalState) (response : Char) :
    ((setMode 5 response s).fst).currentMode = CalibrationMode.MODE_SAVE_EXIT ∧
    ((setMode 5 response s).fst).hasUnsavedChanges = false ∧
    ((setMode 5 response s).fst).hasEverSaved = true ∧
    ((setMode 5 response s).fst).lastSavedState =
      { rotation := s.currentRotation
      , usableOriginX := s.bounds.originX
      , usableOriginY := s.bounds.originY
      , usableWidth := s.bounds.width
      , usableHeight := s.bounds.height
      , frameThickness := s.frameThickness } ∧
    (setMode 5 response s).snd = false := by
  simp only [setMode, modeFromInt, saveAndExit]
  norm_num

/-- C5 counterexample: in a state with unset bounds, unsaved changes and
    a distinct old snapshot, the export step of the save action fails,
    yet saveAndExit still clears the unsaved flag and overwrites the
    last-saved snapshot. -/
theorem c5_failed_export_clears_cex :
    exportConfig c5State = none ∧
    c5State.hasUnsavedChanges = true ∧
    (saveAndExit c5State).hasUnsavedChanges = false ∧
    (saveAndExit c5State).lastSavedState ≠ c5Snapshot := by
  refine ⟨by decide, by decide, by decide, by decide⟩

/-- C5 (amended): every accepted edit operation sets the unsaved-changes
    flag (a rejected one leaves the state unchanged), and the
    save-and-exit action clears the flag and overwrites the snapshot
    unconditionally - also when its export step fails because the bounds
    are unset. -/
theorem c5_flag_amended (s : CalState) (d : Char) :
    ((saveAndExit s).hasUnsavedChanges = false ∧
     (saveAndExit s).hasEverSaved = true ∧
     (saveAndExit s).lastSavedState =
       { rotation := s.currentRotation
       , usableOriginX := s.bounds.originX
       , usableOriginY := s.bounds.originY
       , usableWidth := s.bounds.width
       , usableHeight := s.bounds.height
       , frameThickness := s.frameThickness }) ∧
    (adjustEdge d s = s ∨ (adjustEdge d s).hasUnsavedChanges = true) ∧
    (moveFrame d s = s ∨ (moveFrame d s).hasUnsavedChanges = true) ∧
    (adjustThickness d s = s ∨ (adjustThickness d s).hasUnsavedChanges = true) ∧
    (rotateDisplay d s).hasUnsavedChanges = true := by
  refine ⟨⟨rfl, rfl, rfl⟩, ?_, ?_, ?_, rfl⟩
  · simp only [adjustEdge]
    split_ifs <;> first | exact Or.inl rfl | exact Or.inr rfl
  · simp only [moveFrame]
    split_ifs <;> first | exact Or.inl rfl | exact Or.inr rfl
  · simp only [adjustThickness]
    split_ifs <;> first | exact Or.inl rfl | exact Or.inr rfl

/-- C6 counterexample: with bounds in the sentinel unset state,
    adjustThickness is not guarded - an up adjustment changes the
    thickness, sets the unsaved flag, and its redraw clamps the unset
    bounds up to the 10-pixel minimum rectangle. -/
theorem c6_thickness_not_guarded_cex :
    adjustThickness 'U' (bootState "D") ≠ bootState "D" ∧
    (adjustThickness 'U' (bootState "D")).frameThickness = 3 ∧
    (adjustThickness 'U' (bootState "D")).bounds = ⟨0, 0, 10, 10⟩ ∧
    (adjustThickness 'U' (bootState "D")).hasUnsavedChanges = true := by
  refine ⟨by decide, by decide, by decide, by decide⟩

/-- C6 (amended): with bounds in the sentinel unset state, EdgeAdjust and
    FrameMove are guard-rejected no-ops for every direction, leaving the
    whole session state unchanged; ThicknessAdjust is not guarded and
    does change the state for an in-range adjustment. -/
theorem c6_unset_noop_amended (s : CalState) (d : Char)
    (h : s.bounds.width = 0 ∨ s.bounds.height = 0) :
    adjustEdge d s = s ∧ moveFrame d s = s := by
  unfold adjustEdge moveFrame
  rw [if_pos h, if_pos h]
  exact ⟨rfl, rfl⟩

/-- Witness for the amended C6 theorem at the bootstrap state, whose
    bounds are unset. -/
theorem c6_unset_noop_witness :
    ((bootState "D").bounds.width = 0 ∨ (bootState "D").bounds.height = 0) ∧
    (adjustEdge 'U' (bootState "D") = bootState "D" ∧
     moveFrame 'U' (bootState "D") = bootState "D") :=
  ⟨by decide, c6_unset_noop_amended (bootState "D") 'U' (by decide)⟩

/-- C7: for every prior state with a valid rotation, a left rotation goes
    to (r+3) mod 4 and a right rotation to (r+1) mod 4, the nominal
    surface dimensions are swapped, the bounds are unconditionally reset
    to the unset sentinel, and the unsaved-changes flag is set. -/
theorem c7_rotate (s : CalState)
    (h0 : 0 ≤ s.currentRotation) (h3 : s.currentRotation ≤ 3) :
    ((rotateDisplay 'L' s).currentRotation = (s.currentRotation + 3) % 4 ∧
     (rotateDisplay 'L' s).bounds = ⟨0, 0, 0, 0⟩ ∧
     (rotateDisplay 'L' s).hasUnsavedChanges = true ∧
     tftWidth (rotateDisplay 'L' s).currentRotation = tftHeight s.currentRotation ∧
     tftHeight (rotateDisplay 'L' s).currentRotation = tftWidth s.currentRotation) ∧
    ((rotateDisplay 'R' s).currentRotation = (s.currentRotation + 1) % 4 ∧
     (rotateDisplay 'R' s).bounds = ⟨0, 0, 0, 0⟩ ∧
     (rotateDisplay 'R' s).hasUnsavedChanges = true ∧
     tftWidth (rotateDisplay 'R' s).currentRotation = tftHeight s.currentRotation ∧
     tftHeight (rotateDisplay 'R' s).currentRotation = tftWidth s.currentRotation) := by
  obtain ⟨r, b, ft, m, ls, un, ev, nm⟩ := s
  dsimp only at h0 h3 ⊢
  interval_cases r <;>
    exact ⟨⟨rfl, rfl, rfl, rfl, rfl⟩, ⟨rfl, rfl, rfl, rfl, rfl⟩⟩

/-- Witness for the C7 theorem at the bootstrap scenario state
    (rotation 1). -/
theorem c7_rotate_witness :
    (0 ≤ c7S.currentRotation) ∧ (c7S.currentRotation ≤ 3) ∧
    ((rotateDisplay 'L' c7S).currentRotation = (c7S.currentRotation + 3) % 4) ∧
    ((rotateDisplay 'R' c7S).bounds = ⟨0, 0, 0, 0⟩) :=
  ⟨by decide, by decide, ((c7_rotate c7S (by decide) (by decide)).1).1,
   ((c7_rotate c7S (by decide) (by decide)).2).2.1⟩

/-- C9: export fails exactly when the usable bounds are in the sentinel
    unset state, and a produced record's orientation label follows the
    fixed mapping 0 portrait, 1 landscape, 2 reverse_portrait,
    3 reverse_landscape. -/
theorem c9_export (s : CalState) :
    ((exportConfig s).isNone ↔ (s.bounds.width = 0 ∨ s.bounds.height = 0)) ∧
    (∀ cfg : ConfigRecord, exportConfig s = some cfg →
      ((s.currentRotation = 0 → cfg.orientation = "portrait") ∧
       (s.currentRotation = 1 → cfg.orientation = "landscape") ∧
       (s.currentRotation = 2 → cfg.orientation = "reverse_portrait") ∧
       (s.currentRotation = 3 → cfg.orientation = "reverse_landscape"))) := by
  constructor
  · rcases Decidable.em (s.bounds.width = 0 ∨ s.bounds.height = 0) with h | h <;>
      simp [exportConfig, h]
  · intro cfg hcfg
    simp only [exportConfig] at hcfg
    split_ifs at hcfg
    all_goals
      have hrec := Option.some.inj hcfg
    all_goals
      refine ⟨?_, ?_, ?_, ?_⟩ <;> intro hr <;>
        first
        | omega
        | rw [← hrec]

/-- Witness for the C9 theorem at a set-bounds rotation-1 state. -/
theorem c9_export_witness :
    ((exportConfig c9Sample).isNone ↔
      (c9Sample.bounds.width = 0 ∨ c9Sample.bounds.height = 0)) ∧
    c9Record.orientation = "landscape" :=
  ⟨(c9_export c9Sample).1,
   ((c9_export c9Sample).2 c9Record (by decide)).2.1 (by decide)⟩

/-- C10: in Rotate mode an arrow other than Left or Right leaves the
    rotation value unchanged, yet still resets the bounds to the unset
    sentinel and sets the unsaved-changes flag, because the apply step
    runs with the current rotation regardless of direction. -/
theorem c10_rotate_mode_updown (s : CalState) (key : Char)
    (hm : s.currentMode = CalibrationMode.MODE_ROTATION)
    (h0 : 0 ≤ s.currentRotation) (h3 : s.currentRotation ≤ 3)
    (hL : key ≠ 'L') (hR : key ≠ 'R') :
    (handleArrowKey key s).currentRotation = s.currentRotation ∧
    (handleArrowKey key s).bounds = ⟨0, 0, 0, 0⟩ ∧
    (handleArrowKey key s).hasUnsavedChanges = true := by
  have hmode : handleArrowKey key s = rotateDisplay key s := by
    unfold handleArrowKey
    rw [hm]
    simp
  rw [hmode]
  simp only [rotateDisplay, if_neg hL, if_neg hR]
  unfold setRotation markModified
  rw [if_pos ⟨h0, h3⟩]
  exact ⟨rfl, rfl, rfl⟩

/-- Witness for the C10 theorem: Rotate mode, rotation 1, an up arrow. -/
theorem c10_rotate_mode_updown_witness :
    (c10State.currentMode = CalibrationMode.MODE_ROTATION) ∧
    (0 ≤ c10State.currentRotation) ∧ (c10State.currentRotation ≤ 3) ∧
    (('U' : Char) ≠ 'L') ∧ (('U' : Char) ≠ 'R') ∧
    ((handleArrowKey 'U' c10State).currentRotation = c10State.currentRotation ∧
     (handleArrowKey 'U' c10State).bounds = ⟨0, 0, 0, 0⟩ ∧
     (handleArrowKey 'U' c10State).hasUnsavedChanges = true) :=
  ⟨by decide, by decide, by decide, by decide, by decide,
   c10_rotate_mode_updown c10State 'U' (by decide) (by decide) (by decide)
     (by decide) (by decide)⟩

end Cal
